import Mathlib

/-!
Verification of the rate-controlled actuator loop of `AutoClicker.py`
(class `McAllenClicker`).  The session state and the bodies of
`click_loop`, `monitor_cps`, `toggle_clicking`, `start_clicking`,
`stop_clicking` and `reset_stats` are embedded shallowly: timestamps and
the target rate are rationals, counters are naturals, and each loop
iteration becomes a pure state transformer parameterised by the values the
iteration reads from the outside world (the current clock, whether the
`keyboard` module is available, whether the hotkey is held, whether the
`pyautogui` press/release calls succeed).
-/

namespace AutoClicker

/-- `click_mode` radio values: `"toggle"` or `"hold"`. -/
inductive ClickMode
  | toggle
  | hold
deriving DecidableEq, Repr

/-- `click_type` radio values: `"single"` or `"double"`. -/
inductive ClickType
  | single
  | double
deriving DecidableEq, Repr

/-- External input-injection events issued through `pyautogui`. -/
inductive MouseEvent
  | mouseDown (button : String)
  | mouseUp (button : String)
deriving DecidableEq, Repr

/-- The mutable session state of `McAllenClicker`, as initialised in
`__init__` and mutated by the loops and commands.  UI widgets are
presentation only and are not modelled. -/
structure State where
  is_clicking : Bool
  cps : ℚ
  total_clicks : ℕ
  session_clicks : ℕ
  click_mode : ClickMode
  hotkey : String
  button_type : String
  click_type : ClickType
  start_time : Option ℚ
  actual_cps : ℕ
  last_second_clicks : List ℚ
deriving DecidableEq, Repr

/-- The state built by `McAllenClicker.__init__`. -/
def initState : State where
  is_clicking := false
  cps := 10
  total_clicks := 0
  session_clicks := 0
  click_mode := ClickMode.toggle
  hotkey := "NOT SET"
  button_type := "left"
  click_type := ClickType.single
  start_time := none
  actual_cps := 0
  last_second_clicks := []

/-- `click_loop` line 470:
`interval = max(0.002, 1.0 / (max(0.1, float(self.cps.get()))))`. -/
def clickInterval (cps : ℚ) : ℚ :=
  max (2 / 1000) (1 / max (1 / 10) cps)

/-- `click_loop` line 442: `clicks = 2 if self.click_type.get() == "double" else 1`. -/
def clicksFor (ct : ClickType) : ℕ :=
  if ct = ClickType.double then 2 else 1

/-- `click_loop` lines 447-451: one `mouseDown`/`mouseUp` pair, and a second
pair when `clicks == 2`. -/
def performClicks (button : String) (clicks : ℕ) : List MouseEvent :=
  [MouseEvent.mouseDown button, MouseEvent.mouseUp button] ++
    (if clicks = 2 then [MouseEvent.mouseDown button, MouseEvent.mouseUp button] else [])

/-- `start_clicking` (state effects only): sets the activity flag, records
the start time, zeroes the session counter and empties the window. -/
def startClicking (now : ℚ) (s : State) : State :=
  { s with
    is_clicking := true
    start_time := some now
    session_clicks := 0
    last_second_clicks := [] }

/-- `stop_clicking` (state effects only): clears the activity flag. -/
def stopClicking (s : State) : State :=
  { s with is_clicking := false }

/-- `toggle_clicking`: rejected while the hotkey still holds the sentinel
`"NOT SET"`; otherwise starts when idle and stops when active. -/
def toggleClicking (now : ℚ) (s : State) : State :=
  if s.hotkey = "NOT SET" then s
  else if s.is_clicking = false then startClicking now s
  else stopClicking s

/-- One iteration of the `click_loop` body (lines 431-471), given the values
it reads externally: the clock `now`, whether the `keyboard` module is
available (`kbd`), whether `keyboard.is_pressed` reports the hotkey held
(`held`), and whether the `pyautogui` press/release calls succeed (`ok`).
In hold mode with the key not held the iteration skips; on `pyautogui`
failure it calls `stop_clicking` and returns; otherwise it increments both
counters by `clicks` and appends `now` to the window. -/
def clickIter (now : ℚ) (kbd held ok : Bool) (s : State) : State :=
  if s.click_mode = ClickMode.hold ∧ kbd = true ∧ held = false then s
  else if ok = false then stopClicking s
  else
    { s with
      total_clicks := s.total_clicks + clicksFor s.click_type
      session_clicks := s.session_clicks + clicksFor s.click_type
      last_second_clicks := s.last_second_clicks ++ [now] }

/-- The `pyautogui` events issued during one successful `click_loop`
iteration (empty when the hold-mode gate skips the iteration). -/
def clickIterEvents (kbd held : Bool) (s : State) : List MouseEvent :=
  if s.click_mode = ClickMode.hold ∧ kbd = true ∧ held = false then []
  else performClicks s.button_type (clicksFor s.click_type)

/-- One iteration of the `monitor_cps` body (lines 479-481): prune the
window to timestamps within the last second of `now`, then publish the
pruned window's length as `actual_cps`. -/
def monitorStep (now : ℚ) (s : State) : State :=
  let pruned := s.last_second_clicks.filter (fun t => decide (now - t ≤ 1))
  { s with
    last_second_clicks := pruned
    actual_cps := pruned.length }

/-- `reset_stats`: rejected (warning dialog, state untouched) while active;
while idle, and only if the user confirms, zeroes both counters, the window
and the published rate. -/
def resetStats (confirmed : Bool) (s : State) : State :=
  if s.is_clicking = true then s
  else if confirmed = true then
    { s with
      total_clicks := 0
      session_clicks := 0
      last_second_clicks := []
      actual_cps := 0 }
  else s

/-- The operations that mutate session state, each carrying the external
inputs its code reads.  Loop iterations only occur while `is_clicking`
holds, which `applyOp` enforces as a guard. -/
inductive Op
  | toggle (now : ℚ)
  | clickIter (now : ℚ) (kbd held ok : Bool)
  | monitor (now : ℚ)
  | reset (confirmed : Bool)
  | setHotkey (k : String)
  | setCps (r : ℚ)
  | setClickType (t : ClickType)
  | setClickMode (m : ClickMode)
  | setButton (b : String)
deriving DecidableEq, Repr

/-- Apply one operation.  `click_loop` and `monitor_cps` run only while
`is_clicking` is set (their `while` guards), `start_recording_hotkey` is
rejected while active, and the configuration widgets write directly. -/
def applyOp (s : State) : Op → State
  | Op.toggle now => toggleClicking now s
  | Op.clickIter now kbd held ok =>
      if s.is_clicking = true then clickIter now kbd held ok s else s
  | Op.monitor now => if s.is_clicking = true then monitorStep now s else s
  | Op.reset confirmed => resetStats confirmed s
  | Op.setHotkey k => if s.is_clicking = true then s else { s with hotkey := k }
  | Op.setCps r => { s with cps := r }
  | Op.setClickType t => { s with click_type := t }
  | Op.setClickMode m => { s with click_mode := m }
  | Op.setButton b => { s with button_type := b }

/-- Run a sequence of operations from the freshly initialised state. -/
def run (ops : List Op) : State :=
  ops.foldl applyOp initState

/-- C1: the per-iteration sleep interval is `max(0.002, 1/max(0.1, r))`;
the divisor is clamped to at least `0.1`, hence positive, and the interval
is at least `0.002` seconds. -/
theorem clickInterval_clamped (r : ℚ) :
    clickInterval r = max (2 / 1000) (1 / max (1 / 10) r) ∧
    (1 / 10 : ℚ) ≤ max (1 / 10) r ∧
    (0 : ℚ) < max (1 / 10) r ∧
    (2 / 1000 : ℚ) ≤ clickInterval r := by
  refine ⟨rfl, le_max_left _ _, ?_, le_max_left _ _⟩
  exact lt_of_lt_of_le (by norm_num) (le_max_left _ _)

/-- A session state mid-run: active, with some accumulated statistics. -/
def activeState : State :=
  { initState with
    is_clicking := true
    total_clicks := 7
    session_clicks := 3
    actual_cps := 2
    last_second_clicks := [41 / 10, 5] }

/-- An idle state with the same accumulated statistics. -/
def idleState : State :=
  { activeState with is_clicking := false }

/-- C2: assuming no window entry lies in the future of the prune's clock
read (each was appended at an earlier clock read), after the
`monitor_cps` prune at time `now` every timestamp in the window lies in
`[now - 1, now]`: nothing is older than one second. -/
theorem window_within_second_after_prune (s : State) (now : ℚ)
    (h : ∀ t ∈ s.last_second_clicks, t ≤ now) :
    ∀ t ∈ (monitorStep now s).last_second_clicks, now - 1 ≤ t ∧ t ≤ now := by
  intro t ht
  simp only [monitorStep, List.mem_filter, decide_eq_true_eq] at ht
  exact ⟨by linarith [ht.2], h t ht.1⟩

theorem window_within_second_after_prune_witness :
    (5 : ℚ) - 1 ≤ (41 / 10 : ℚ) ∧ (41 / 10 : ℚ) ≤ 5 :=
  window_within_second_after_prune activeState 5
    (by intro t ht
        simp only [activeState, initState, List.mem_cons, List.not_mem_nil, or_false] at ht
        rcases ht with h1 | h1 <;> norm_num [h1])
    (41 / 10)
    (by simp only [monitorStep, activeState, initState, List.mem_filter, List.mem_cons,
          decide_eq_true_eq]
        norm_num)

/-- C3: each `monitor_cps` iteration replaces the window by exactly the
timestamps `t` with `now - t ≤ 1` and publishes the pruned window's length
as the observed rate. -/
theorem monitor_prune_publish (s : State) (now : ℚ) :
    (monitorStep now s).last_second_clicks
      = s.last_second_clicks.filter (fun t => decide (now - t ≤ 1)) ∧
    (monitorStep now s).actual_cps = (monitorStep now s).last_second_clicks.length ∧
    (∀ t, t ∈ (monitorStep now s).last_second_clicks ↔
      t ∈ s.last_second_clicks ∧ now - t ≤ 1) := by
  refine ⟨rfl, rfl, fun t => ?_⟩
  simp [monitorStep, List.mem_filter]

/-- C4: reset invoked while active leaves the state unchanged; reset
invoked while idle and confirmed zeroes the total count, session count and
observed rate and empties the window, leaving everything else unchanged. -/
theorem reset_guarded (s : State) :
    (s.is_clicking = true → resetStats true s = s) ∧
    (s.is_clicking = false →
      resetStats true s =
        { s with
          total_clicks := 0
          session_clicks := 0
          last_second_clicks := []
          actual_cps := 0 }) := by
  constructor <;> intro h <;> simp [resetStats, h]

theorem reset_guarded_witness :
    resetStats true activeState = activeState ∧
    resetStats true idleState =
      { idleState with
        total_clicks := 0
        session_clicks := 0
        last_second_clicks := []
        actual_cps := 0 } :=
  ⟨(reset_guarded activeState).1 rfl, (reset_guarded idleState).2 rfl⟩

/-- C6: while the hotkey still holds the sentinel `"NOT SET"`, the toggle
command is a no-op: the state, and in particular the activity flag and all
session statistics, are unchanged. -/
theorem toggle_rejected_without_hotkey (s : State) (now : ℚ)
    (h : s.hotkey = "NOT SET") :
    toggleClicking now s = s := by
  simp [toggleClicking, h]

theorem toggle_rejected_without_hotkey_witness :
    toggleClicking 0 initState = initState :=
  toggle_rejected_without_hotkey initState 0 rfl

/-- C7: when the `pyautogui` press/release calls fail in an iteration that
reached them (not skipped by the hold-mode gate), the iteration stops the
session — the resulting state is exactly `stop_clicking`'s, with the
activity flag cleared — and neither counter nor the window is touched. -/
theorem click_failure_stops (s : State) (now : ℚ) (kbd held : Bool)
    (hgate : ¬(s.click_mode = ClickMode.hold ∧ kbd = true ∧ held = false)) :
    clickIter now kbd held false s = stopClicking s ∧
    (clickIter now kbd held false s).is_clicking = false ∧
    (clickIter now kbd held false s).total_clicks = s.total_clicks ∧
    (clickIter now kbd held false s).session_clicks = s.session_clicks ∧
    (clickIter now kbd held false s).last_second_clicks = s.last_second_clicks := by
  simp [clickIter, hgate, stopClicking]

theorem click_failure_stops_witness :
    clickIter 6 true true false activeState = stopClicking activeState ∧
    (clickIter 6 true true false activeState).is_clicking = false ∧
    (clickIter 6 true true false activeState).total_clicks = activeState.total_clicks ∧
    (clickIter 6 true true false activeState).session_clicks = activeState.session_clicks ∧
    (clickIter 6 true true false activeState).last_second_clicks
      = activeState.last_second_clicks :=
  click_failure_stops activeState 6 true true (by decide)

/-- C8: per successful iteration, the double action kind issues exactly two
press+release pairs and the single kind exactly one — double is exactly the
single pair sequence twice — and both counters grow by 2 for double and by
1 for single (`clicks = clicksFor`). -/
theorem double_twice_single (b : String) (s : State) (now : ℚ) (kbd held : Bool)
    (hgate : ¬(s.click_mode = ClickMode.hold ∧ kbd = true ∧ held = false)) :
    clicksFor ClickType.double = 2 ∧
    clicksFor ClickType.single = 1 ∧
    performClicks b (clicksFor ClickType.double)
      = performClicks b (clicksFor ClickType.single)
        ++ performClicks b (clicksFor ClickType.single) ∧
    clickIterEvents kbd held s = performClicks s.button_type (clicksFor s.click_type) ∧
    (clickIter now kbd held true s).total_clicks
      = s.total_clicks + clicksFor s.click_type ∧
    (clickIter now kbd held true s).session_clicks
      = s.session_clicks + clicksFor s.click_type := by
  refine ⟨rfl, rfl, rfl, ?_, ?_, ?_⟩ <;>
    simp [clickIterEvents, clickIter, hgate]

theorem double_twice_single_witness :
    clicksFor ClickType.double = 2 ∧
    clicksFor ClickType.single = 1 ∧
    performClicks "left" (clicksFor ClickType.double)
      = performClicks "left" (clicksFor ClickType.single)
        ++ performClicks "left" (clicksFor ClickType.single) ∧
    clickIterEvents true true activeState
      = performClicks activeState.button_type (clicksFor activeState.click_type) ∧
    (clickIter 6 true true true activeState).total_clicks
      = activeState.total_clicks + clicksFor activeState.click_type ∧
    (clickIter 6 true true true activeState).session_clicks
      = activeState.session_clicks + clicksFor activeState.click_type :=
  double_twice_single "left" activeState 6 true true (by decide)

/-- C9: `start_clicking` zeroes the session counter and empties the window
while leaving the total counter unchanged, and raises the activity flag. -/
theorem start_zeroes_session (s : State) (now : ℚ) :
    (startClicking now s).session_clicks = 0 ∧
    (startClicking now s).last_second_clicks = [] ∧
    (startClicking now s).total_clicks = s.total_clicks ∧
    (startClicking now s).is_clicking = true := by
  simp [startClicking]

/-- A reachable run: set a hotkey, start, one successful single-click
iteration, stop.  Its final state has `total_clicks = 1`. -/
def c5prefix : List Op :=
  [Op.setHotkey "F6", Op.toggle 0, Op.clickIter 1 true true true, Op.toggle 2]

/-- C5 counterexample: a confirmed reset from the idle state reached by
`c5prefix` drops the total action count from 1 to 0, so the total count
does decrease under an operation of the listed kind (reset). -/
theorem total_decreases_on_reset :
    (applyOp (run c5prefix) (Op.reset true)).total_clicks
      < (run c5prefix).total_clicks ∧
    (run c5prefix).total_clicks = 1 ∧
    (applyOp (run c5prefix) (Op.reset true)).total_clicks = 0 := by
  refine ⟨?_, ?_, ?_⟩ <;>
    simp [run, c5prefix, applyOp, initState, toggleClicking, startClicking,
      stopClicking, clickIter, clicksFor, resetStats]

/-- C5 amended: under every operation other than a reset — start/stop
toggles, click-loop iterations, monitor iterations and configuration
changes — the total action count never decreases. -/
theorem total_monotone_without_reset (s : State) (op : Op)
    (h : ∀ c, op ≠ Op.reset c) :
    s.total_clicks ≤ (applyOp s op).total_clicks := by
  cases op with
  | reset c => exact absurd rfl (h c)
  | toggle now =>
      simp only [applyOp, toggleClicking, startClicking, stopClicking]
      split_ifs <;> simp
  | clickIter now kbd held ok =>
      simp only [applyOp, clickIter, stopClicking]
      split_ifs <;> simp
  | monitor now =>
      simp only [applyOp, monitorStep]
      split_ifs <;> simp
  | setHotkey k =>
      simp only [applyOp]
      split_ifs <;> simp
  | setCps r => simp [applyOp]
  | setClickType t => simp [applyOp]
  | setClickMode m => simp [applyOp]
  | setButton b => simp [applyOp]

theorem total_monotone_without_reset_witness :
    activeState.total_clicks
      ≤ (applyOp activeState (Op.clickIter 6 true true true)).total_clicks :=
  total_monotone_without_reset activeState (Op.clickIter 6 true true true)
    (fun _ h => Op.noConfusion h)

/-- Each single operation preserves `session_clicks ≤ total_clicks`: the
loop adds the same amount to both, start zeroes only the session counter,
reset zeroes both. -/
theorem session_le_total_step {s : State} (h : s.session_clicks ≤ s.total_clicks)
    (op : Op) : (applyOp s op).session_clicks ≤ (applyOp s op).total_clicks := by
  cases op <;>
    simp only [applyOp, resetStats, toggleClicking, startClicking, stopClicking,
      clickIter, monitorStep] <;>
    (try split_ifs) <;> simp_all

/-- The step invariant propagated through a fold. -/
theorem session_le_total_foldl (ops : List Op) :
    ∀ s : State, s.session_clicks ≤ s.total_clicks →
      (ops.foldl applyOp s).session_clicks ≤ (ops.foldl applyOp s).total_clicks := by
  induction ops with
  | nil => exact fun s h => h
  | cons op rest ih => exact fun s h => ih _ (session_le_total_step h op)

/-- C10: in every state reachable from initialisation by any operation
sequence, the total action count is at least the session action count. -/
theorem session_le_total (ops : List Op) :
    (run ops).session_clicks ≤ (run ops).total_clicks :=
  session_le_total_foldl ops initState (Nat.le_refl 0)

end AutoClicker
